import Mathlib

/-!
Verification of the paper-loupe paper resolution and relevance-ranking
pipeline, shallowly embedded from the Python sources
(`llm_analyzer.py`, `arxiv_lookup.py`, `paper_store.py`, `models.py`).

Machine floats are modelled by `ℚ`, Python ints by `Int`, Python dicts by
association lists, and a dict value that may be `None` by an `Option`.
External effects (the arXiv search service, LLM backends) are modelled as
oracle parameters, and the external calls a function issues are returned
as an explicit trace list.
-/

/-! ### Python string primitives -/

/-- Python `str.strip()` on a character list: drop whitespace at both ends. -/
def pyStrip (cs : List Char) : List Char :=
  ((cs.dropWhile Char.isWhitespace).reverse.dropWhile Char.isWhitespace).reverse

/-- Python `str.find(sub)`: index of the first occurrence of `needle`
(`none` for Python\x27s `-1`).  `subFind [] hay = some 0`, as in Python. -/
def subFind (needle : List Char) : List Char → Option Nat
  | [] => if needle.isPrefixOf [] then some 0 else none
  | c :: t =>
    if needle.isPrefixOf (c :: t) then some 0
    else (subFind needle t).map Nat.succ

/-- Python `str.rfind(sub)`: index of the last occurrence of `needle`. -/
def subRFind (needle : List Char) : List Char → Option Nat
  | [] => if needle.isPrefixOf [] then some 0 else none
  | c :: t =>
    match subRFind needle t with
    | some i => some (i + 1)
    | none => if needle.isPrefixOf (c :: t) then some 0 else none

/-- Python slice `s[a:b]` for `0 ≤ a, b` (empty when `b ≤ a`). -/
def pySlice (cs : List Char) (a b : Nat) : List Char :=
  (cs.drop a).take (b - a)

/-- Python `s[:n]` on a string. -/
def firstChars (s : String) (n : Nat) : String :=
  String.mk (s.data.take n)

/-- Python `str.split()` (split on whitespace runs, discarding empties). -/
def pySplitWsAux : List Char → List Char → List (List Char)
  | [], cur => if cur.isEmpty then [] else [cur.reverse]
  | c :: rest, cur =>
    if c.isWhitespace then
      if cur.isEmpty then pySplitWsAux rest [] else cur.reverse :: pySplitWsAux rest []
    else pySplitWsAux rest (c :: cur)

def pySplitWs (cs : List Char) : List (List Char) := pySplitWsAux cs []

/-! ### Python float literals

`float(s)` on an already-stripped token, modelled over `ℚ`:
optional sign, decimal mantissa with optional fractional part, optional
decimal exponent.  The special literals `inf`/`nan` have no `ℚ`
counterpart and are treated as conversion failures. -/

def digitsVal (cs : List Char) : Nat :=
  cs.foldl (fun a c => a * 10 + (c.toNat - '0'.toNat)) 0

/-- Split a float literal at the first `e`/`E`. -/
def splitExp : List Char → List Char × Option (List Char)
  | [] => ([], none)
  | c :: rest =>
    if c = 'e' ∨ c = 'E' then ([], some rest)
    else
      let (m, e) := splitExp rest
      (c :: m, e)

def parseMantissa (cs : List Char) : Option ℚ :=
  let ip := cs.takeWhile Char.isDigit
  let rest := cs.dropWhile Char.isDigit
  match rest with
  | [] => if ip.isEmpty then none else some (digitsVal ip : ℚ)
  | '.' :: fp =>
    if fp.all Char.isDigit ∧ (¬ ip.isEmpty ∨ ¬ fp.isEmpty) then
      some ((digitsVal ip : ℚ) + (digitsVal fp : ℚ) / (10 : ℚ) ^ fp.length)
    else none
  | _ => none

def parseExpInt (cs : List Char) : Option Int :=
  match cs with
  | '+' :: r => if ¬ r.isEmpty ∧ r.all Char.isDigit then some (digitsVal r : Int) else none
  | '-' :: r => if ¬ r.isEmpty ∧ r.all Char.isDigit then some (-(digitsVal r : Int)) else none
  | r => if ¬ r.isEmpty ∧ r.all Char.isDigit then some (digitsVal r : Int) else none

def parseFloatUnsigned (cs : List Char) : Option ℚ := do
  let (mant, expPart) := splitExp cs
  let m ← parseMantissa mant
  match expPart with
  | none => some m
  | some ecs => do
    let e ← parseExpInt ecs
    if 0 ≤ e then some (m * (10 : ℚ) ^ e.toNat)
    else some (m / (10 : ℚ) ^ (-e).toNat)

def parseFloat (cs : List Char) : Option ℚ :=
  match cs with
  | '+' :: rest => parseFloatUnsigned rest
  | '-' :: rest => (parseFloatUnsigned rest).map Neg.neg
  | _ => parseFloatUnsigned cs

/-! ### `parse_relevance_response` (llm_analyzer.py 348-401) -/

/-- The lazy-regex extraction `re.search(r"<open>(.*?)</close>", s, DOTALL)`:
content between the first occurrence of the opening tag and the first
occurrence of the closing tag after it. -/
def extractBlock (openT closeT : List Char) (cs : List Char) : Option (List Char) :=
  match subFind openT cs with
  | none => none
  | some i =>
    let rest := cs.drop (i + openT.length)
    match subFind closeT rest with
    | none => none
    | some j => some (rest.take j)

/-- Code-fence unwrapping: the `"```xml" in xml_content` / `"```" in
xml_content` branches of `parse_relevance_response`. -/
def codeFenceStrip (cs : List Char) : List Char :=
  match subFind "```xml".data cs with
  | some i =>
    match subRFind "```".data cs with
    | some j => pyStrip (pySlice cs (i + 7) j)
    | none => cs
  | none =>
    match subFind "```".data cs with
    | some i =>
      match subRFind "```".data cs with
      | some j => pyStrip (pySlice cs (i + 3) j)
      | none => cs
    | none => cs

/-- The `try` body of `parse_relevance_response`: the two `raise
ValueError` sites become `Except.error`. On success returns the
normalized score (`score / 10`) and the stripped explanation. -/
def parseCore (response : String) : Except String (ℚ × String) :=
  let xml := codeFenceStrip (pyStrip response.data)
  match extractBlock "<explanation>".data "</explanation>".data xml,
        extractBlock "<score>".data "</score>".data xml with
  | some eg, some sg =>
    match parseFloat (pyStrip sg) with
    | some score => .ok (score / 10, String.mk (pyStrip eg))
    | none => .error ("Could not convert score to float: " ++ String.mk sg)
  | _, _ => .error "Failed to find explanation or score in XML response"

structure ParseResult where
  relevance_score : ℚ
  explanation : String
  parse_error : Option String := none
  deriving Repr, DecidableEq

/-- `parse_relevance_response` (llm_analyzer.py 348-401): the `try` body,
with the catch-all `except` producing the fallback result that embeds the
first 200 characters of the raw response. -/
def parse_relevance_response (response : String) : ParseResult :=
  match parseCore response with
  | .ok (sc, ex) => { relevance_score := sc, explanation := ex }
  | .error e =>
    { relevance_score := 0
      explanation := "Failed to parse LLM response: " ++ e ++
          "\nOriginal response: " ++ firstChars response 200 ++ "..."
      parse_error := some e }

/-! ### Model registry (models.py) -/

structure ModelInfo where
  name : String
  provider : String
  api_model_id : String
  description : String
  context_window : Nat
  pricing_input : ℚ
  pricing_output : ℚ
  pricing_currency : String
  max_tokens_default : Nat
  deriving Repr, DecidableEq

/-- `SUPPORTED_MODELS` (models.py): the fixed model registry.  Dollar
prices are exact rationals (`2.50 = 5/2`, `0.15 = 3/20`, ...). -/
def SUPPORTED_MODELS : List (String × ModelInfo) :=
  [("gpt-4o",
    { name := "GPT-4o", provider := "openai", api_model_id := "gpt-4o"
      description := "OpenAI\x27s most capable model, optimized for chat"
      context_window := 128000, pricing_input := 5/2, pricing_output := 10
      pricing_currency := "USD", max_tokens_default := 1024 }),
   ("gpt-4o-mini",
    { name := "GPT-4o Mini", provider := "openai", api_model_id := "gpt-4o-mini"
      description := "Smaller, faster, and more affordable version of GPT-4o"
      context_window := 128000, pricing_input := 3/20, pricing_output := 3/5
      pricing_currency := "USD", max_tokens_default := 1024 }),
   ("claude-3-7-sonnet",
    { name := "Claude 3.7 Sonnet", provider := "anthropic"
      api_model_id := "claude-3-7-sonnet-20240229"
      description := "Anthropic\x27s advanced model with strong reasoning capabilities"
      context_window := 200000, pricing_input := 3, pricing_output := 15
      pricing_currency := "USD", max_tokens_default := 4096 }),
   ("claude-3-5-haiku",
    { name := "Claude 3.5 Haiku", provider := "anthropic"
      api_model_id := "claude-3-5-haiku-20240307"
      description := "Anthropic\x27s smaller, faster model with excellent capabilities"
      context_window := 200000, pricing_input := 4/5, pricing_output := 4
      pricing_currency := "USD", max_tokens_default := 4096 }),
  ]

/-! ### The relevance analyzer (llm_analyzer.py)

A paper dict is a structure of optional fields (`none` = key absent).
Provider usage metadata distinguishes an absent key (outer `none`) from a
key present with Python `None` (inner `none`), which is exactly the
distinction `metadata.get("prompt_tokens", 0)` is sensitive to.
The LLM environment is an oracle `getProv : String → Option Provider`
standing for `get_provider` (API keys and installed backend libraries);
`Provider.analyze` takes prompt, api model id and max tokens, and either
returns text plus metadata or fails like a raised `LLMError`.  Every
function returns alongside its result the trace of prompts sent to a
provider, so that "no external call is issued" is a provable statement. -/

structure Paper where
  arxiv_id : Option String := none
  title : Option String := none
  authors : Option String := none
  abstract : Option String := none
  categories : Option (List String) := none
  deriving Repr, DecidableEq

structure Metadata where
  model : Option String := none
  provider : Option String := none
  model_used : Option String := none
  prompt_tokens : Option (Option Int) := none
  completion_tokens : Option (Option Int) := none
  total_tokens : Option (Option Int) := none
  deriving Repr, DecidableEq

structure Provider where
  analyze : String → String → Nat → Except String (String × Metadata)

/-- The result dict of `analyze_relevance`; optional fields model keys
that only some code paths add. -/
structure AnalysisResult where
  relevance_score : ℚ
  explanation : String
  error : Bool := false
  parse_error : Option String := none
  question : Option String := none
  arxiv_id : Option String := none
  title : Option String := none
  metadata : Option Metadata := none
  deriving DecidableEq

structure TokenUsage where
  total_prompt_tokens : Int
  total_completion_tokens : Int
  total_tokens : Int
  estimated_cost : ℚ
  deriving Repr, DecidableEq

/-- `metadata = {..., "prompt_tokens": None, ...}` built by
`AnthropicProvider.analyze` (llm_analyzer.py 162-169): the token keys are
present but hold `None`. -/
def anthropicMetadata (model_id : String) : Metadata :=
  { model := some model_id, provider := some "anthropic"
    prompt_tokens := some none, completion_tokens := some none
    total_tokens := some none }

/-- `metadata` built by `OpenAIProvider.analyze` (llm_analyzer.py 113-119):
token counts reported as ints. -/
def openaiMetadata (model_id : String) (pt ct tt : Int) : Metadata :=
  { model := some model_id, provider := some "openai"
    prompt_tokens := some (some pt), completion_tokens := some (some ct)
    total_tokens := some (some tt) }

/-- `create_prompt` (llm_analyzer.py 294-345). -/
def create_prompt (paper_data : Paper) (question : String) : String :=
  let title := paper_data.title.getD "Untitled Paper"
  let authors := paper_data.authors.getD "Unknown Authors"
  let abstract0 := paper_data.abstract.getD "No abstract available."
  let abstract :=
    if 2000 < abstract0.data.length then firstChars abstract0 1997 ++ "..." else abstract0
  let categories := paper_data.categories.getD []
  let categories_str :=
    if categories.isEmpty then "Not specified" else String.intercalate ", " categories
  "You are a research assistant helping to evaluate papers for relevance to specific research questions.\n\nTASK:\nDescribe whether the topic of the paper or any of its results have any bearing on the research question below. Then produce a final score between 0 and 10, where:\n- 0: Completely irrelevant, no connection to the research question\n- 5: Somewhat relevant, has some connection but not directly addressing the question\n- 10: Highly relevant, directly addresses the core of the research question\n\nREQUIRED RESPONSE FORMAT:\nProvide your response in the following XML format:\n<explanation>\nYour detailed explanation of whether and how the paper relates to the research question. Analyze both the topic and any results mentioned in the abstract.\n</explanation>\n<score>X</score>\nWhere X is an integer between 0 and 10.\n\nPAPER DETAILS:\nTitle: "
    ++ title ++ "\nAuthors: " ++ authors ++ "\nCategories: " ++ categories_str
    ++ "\nAbstract: " ++ abstract ++ "\n\nRESEARCH QUESTION:\n" ++ question
    ++ "\n\nIMPORTANT: Return ONLY the XML formatted output, with no additional text before or after.\n"

/-- `analyze_relevance` (llm_analyzer.py 211-291).  `Except.error` is the
raised `ValueError`; the second component is the trace of prompts sent. -/
def analyze_relevance (getProv : String → Option Provider) (paper_data : Paper)
    (question : String) (model : String) :
    Except String AnalysisResult × List String :=
  match paper_data.arxiv_id with
  | none => (.error "Paper data is missing required \x27arxiv_id\x27 field", [])
  | some pid =>
    match paper_data.title with
    | none => (.error "Paper data is missing required \x27title\x27 field", [])
    | some ptitle =>
      match (SUPPORTED_MODELS.lookup model) with
      | none =>
        (.ok { relevance_score := 0
               explanation := "Error: Model \x27" ++ model ++ "\x27 not supported."
               error := true, arxiv_id := some pid, title := some ptitle }, [])
      | some model_info =>
        match getProv model_info.provider with
        | none =>
          (.ok { relevance_score := 0
                 explanation := "Error: Failed to initialize " ++ model_info.provider ++ " provider."
                 error := true, arxiv_id := some pid, title := some ptitle }, [])
        | some provider =>
          let prompt := create_prompt paper_data question
          match provider.analyze prompt model_info.api_model_id 1000 with
          | .ok (response_text, metadata) =>
            let result := parse_relevance_response response_text
            (.ok { relevance_score := result.relevance_score
                   explanation := result.explanation
                   parse_error := result.parse_error
                   question := some question, arxiv_id := some pid
                   title := some ptitle, metadata := some metadata }, [prompt])
          | .error e =>
            (.ok { relevance_score := 0
                   explanation := "Error from LLM: " ++ e
                   error := true, question := some question, arxiv_id := some pid
                   title := some ptitle
                   metadata := some { model_used := some model } }, [prompt])

/-- The up-front validation loop of `batch_analyze` (llm_analyzer.py
437-444); `some msg` is the raised `ValueError`. -/
def validatePapers : List Paper → Nat → Option String
  | [], _ => none
  | p :: ps, i =>
    if p.arxiv_id.isNone then
      some ("Paper at index " ++ toString i ++ " is missing required \x27arxiv_id\x27 field")
    else if p.title.isNone then
      some ("Paper " ++ p.arxiv_id.getD ("at index " ++ toString i) ++
        " is missing required \x27title\x27 field")
    else validatePapers ps (i + 1)

/-- `metadata.get("prompt_tokens", 0)`: an absent key defaults to the int
`0`; a present key yields its value, which may be Python `None`. -/
def getTok (field : Option (Option Int)) : Option Int :=
  match field with
  | none => some 0
  | some v => v

/-- `token_usage[...] += v`: adding `None` to an int raises `TypeError`. -/
def addTok (acc : Int) (v : Option Int) : Except String Int :=
  match v with
  | some n => .ok (acc + n)
  | none => .error "TypeError: unsupported operand type(s) for +=: \x27int\x27 and \x27NoneType\x27"

/-- The per-call token-usage update of `batch_analyze` (llm_analyzer.py
454-469): the three `+=` lines in order, then the cost line. -/
def updateUsage (model_info : ModelInfo) (u : TokenUsage) (metadata : Metadata) :
    Except String TokenUsage :=
  match addTok u.total_prompt_tokens (getTok metadata.prompt_tokens) with
  | .error e => .error e
  | .ok tp =>
    match addTok u.total_completion_tokens (getTok metadata.completion_tokens) with
    | .error e => .error e
    | .ok tc =>
      match addTok u.total_tokens (getTok metadata.total_tokens) with
      | .error e => .error e
      | .ok tt =>
        match getTok metadata.prompt_tokens, getTok metadata.completion_tokens with
        | some pt, some ct =>
          .ok { total_prompt_tokens := tp, total_completion_tokens := tc
                total_tokens := tt
                estimated_cost := u.estimated_cost +
                  (pt : ℚ) * model_info.pricing_input / 1000000 +
                  (ct : ℚ) * model_info.pricing_output / 1000000 }
        | _, _ => .error "unreachable"

/-- Inner loop of `batch_analyze` over questions for one paper. -/
def batchQuestions (getProv : String → Option Provider) (model_info : ModelInfo)
    (paper : Paper) (model : String) (u : TokenUsage) :
    List String → Except String (List (String × AnalysisResult) × TokenUsage) × List String
  | [] => (.ok ([], u), [])
  | q :: qs =>
    let (res, tr) := analyze_relevance getProv paper q model
    match res with
    | .error e => (.error e, tr)
    | .ok r =>
      match updateUsage model_info u (r.metadata.getD {}) with
      | .error e => (.error e, tr)
      | .ok u' =>
        match batchQuestions getProv model_info paper model u' qs with
        | (.error e, tr') => (.error e, tr ++ tr')
        | (.ok (rest, uEnd), tr') => (.ok ((q, r) :: rest, uEnd), tr ++ tr')

/-- Outer loop of `batch_analyze` over papers. -/
def batchPapers (getProv : String → Option Provider) (model_info : ModelInfo)
    (model : String) (questions : List String) (u : TokenUsage) :
    List Paper → Except String (List (String × List (String × AnalysisResult)) × TokenUsage) × List String
  | [] => (.ok ([], u), [])
  | p :: ps =>
    match batchQuestions getProv model_info p model u questions with
    | (.error e, tr) => (.error e, tr)
    | (.ok (qres, u'), tr) =>
      match batchPapers getProv model_info model questions u' ps with
      | (.error e, tr') => (.error e, tr ++ tr')
      | (.ok (rest, uEnd), tr') => (.ok ((p.arxiv_id.getD "", qres) :: rest, uEnd), tr ++ tr')

/-- `batch_analyze` (llm_analyzer.py 404-471): model lookup, up-front
validation of every paper, then the papers × questions cross product with
token-usage accumulation.  `Except.error` is a raised exception and the
second component is the trace of prompts sent to providers. -/
def batch_analyze (getProv : String → Option Provider) (papers : List Paper)
    (questions : List String) (model : String) :
    Except String (List (String × List (String × AnalysisResult)) × TokenUsage) × List String :=
  match (SUPPORTED_MODELS.lookup model) with
  | none => (.error ("Model \x27" ++ model ++ "\x27 not supported"), [])
  | some model_info =>
    match validatePapers papers 0 with
    | some e => (.error e, [])
    | none =>
      batchPapers getProv model_info model questions
        { total_prompt_tokens := 0, total_completion_tokens := 0
          total_tokens := 0, estimated_cost := 0 } papers

/-! ### arXiv lookup (arxiv_lookup.py)

The external bibliographic service is an oracle `oracle : String → List P`
standing for `search_arxiv_by_title` (as the repository tests patch it);
`search_with_fallback` additionally returns the trace of queries issued,
in order. -/

/-- The fixed stop-word list of strategy 3. -/
def commonWords : List String :=
  ["a", "an", "the", "on", "of", "for", "and", "in", "to", "with"]

/-- The key-phrase loop of `search_with_fallback` (arxiv_lookup.py 82-88):
append cleaned non-stop-words, stopping as soon as two are collected. -/
def keyPhraseLoop : List (List Char) → List (List Char) → List (List Char)
  | [], acc => acc
  | w :: ws, acc =>
    let clean := w.filter (fun c => c.isAlphanum || c.isWhitespace)
    if (String.mk clean).toLower ∈ commonWords then keyPhraseLoop ws acc
    else
      let acc' := acc ++ [clean]
      if 2 ≤ acc'.length then acc' else keyPhraseLoop ws acc'

/-- Strategy 3 of `search_with_fallback` (arxiv_lookup.py 71-95): the
author-anchored query, or `none` when it is skipped (no authors, or no
key phrase). -/
def strategy3Query (title : String) (authors : List String) : Option String :=
  match authors with
  | [] => none
  | first_author :: _ =>
    let last_name := String.mk (pyStrip (((first_author.splitOn ",").headD "").data))
    let key_phrase := keyPhraseLoop (pySplitWs title.data) []
    if key_phrase.isEmpty then none
    else
      some ("author:" ++ last_name ++ " AND \"" ++
        String.intercalate " " (key_phrase.map String.mk) ++ "\"")

/-- `search_with_fallback` (arxiv_lookup.py 42-98), with the queries it
issues to `search_arxiv_by_title` returned as a trace. -/
def search_with_fallback {P : Type} (oracle : String → List P)
    (title : String) (authors : List String) : List P × List String :=
  let quoted_title := "\"" ++ title ++ "\""
  let r1 := oracle quoted_title
  if ¬ r1.isEmpty then (r1, [quoted_title])
  else
    let r2 := oracle title
    if ¬ r2.isEmpty then (r2, [quoted_title, title])
    else
      match strategy3Query title authors with
      | none => ([], [quoted_title, title])
      | some author_query =>
        let r3 := oracle author_query
        if ¬ r3.isEmpty then (r3, [quoted_title, title, author_query])
        else ([], [quoted_title, title, author_query])

/-- The delay computation of `throttled_request` (arxiv_lookup.py
114-120): base 1.0 plus jitter, floored at 0.8. -/
def throttleDelay (jitter : ℚ) : ℚ :=
  let delay := 1 + jitter
  if delay < 4/5 then 4/5 else delay

/-- `throttled_request` (arxiv_lookup.py 101-126): sleeps for
`throttleDelay jitter`, then executes the operation and forwards its
result.  The pair is (imposed delay, operation result). -/
def throttled_request {T : Type} (jitter : ℚ) (func : Unit → T) : ℚ × T :=
  (throttleDelay jitter, func ())

/-! ### Paper store (paper_store.py)

A cell value is a string, a number, or a missing value (pandas `NaN`); a
row is an association list keyed by column name, with `NaN` as implicit
default for absent keys, matching a DataFrame built from a list of dicts;
a frame is a list of rows.  The two pandas column conversions applied by
`create_dataframe` (`pd.to_datetime`, `pd.to_numeric`, both with
`errors="coerce"`) are external library functions, passed as parameters. -/

inductive PVal where
  | s (v : String)
  | q (v : ℚ)
  | nan
  deriving Repr, DecidableEq

abbrev PRow := List (String × PVal)

abbrev Frame := List PRow

/-- Reading column `k` of a row: pandas yields `NaN` for a key the
row's dict did not carry. -/
def colGet (row : PRow) (k : String) : PVal :=
  match row.lookup k with
  | some v => v
  | none => .nan

/-- `df[k] = v` on one row: overwrite `k`, appending the column at the end
as pandas does for a new column. -/
def setCol (row : PRow) (k : String) (v : PVal) : PRow :=
  (row.filter (fun p => p.1 ≠ k)) ++ [(k, v)]

/-- The column set of a frame built from a list of dicts: the union of the
rows' keys in first-appearance order. -/
def frameColumns (papers : Frame) : List String :=
  (papers.foldl (fun acc row => acc ++ (row.map Prod.fst).filter (fun k => k ∉ acc)) [])

/-- Apply a conversion to column `k` of every row that carries it. -/
def convertCol (f : PVal → PVal) (k : String) (df : Frame) : Frame :=
  df.map (fun row => row.map (fun p => if p.1 = k then (p.1, f p.2) else p))

/-- `create_dataframe` (paper_store.py 15-49): reject an empty paper list,
then check the required columns, then apply the two column conversions.
`Except.error` is the raised `ValueError`. -/
def create_dataframe (to_datetime to_numeric : PVal → PVal) (papers : Frame) :
    Except String Frame :=
  if papers.isEmpty then .error "No papers provided to create_dataframe"
  else
    let columns := frameColumns papers
    let missing_fields := ["title", "authors"].filter (fun f => f ∉ columns)
    if ¬ missing_fields.isEmpty then
      .error ("Papers are missing required fields: " ++ String.intercalate ", " missing_fields)
    else
      let df := papers
      let df := if "email_date" ∈ columns then convertCol to_datetime "email_date" df else df
      let df := if "relevance" ∈ columns then convertCol to_numeric "relevance" df else df
      .ok df

/-- `deduplicate_papers` (paper_store.py 106-117): the body is a stub that
returns the frame unchanged. -/
def deduplicate_papers (df : Frame) : Frame :=
  df

/-- `df["arxiv_id"].map(relevance_scores)`: a string id found in the dict
maps to its score, anything else to `NaN`. -/
def mapScore (relevance_scores : List (String × ℚ)) : PVal → PVal
  | .s id => match relevance_scores.lookup id with
    | some v => .q v
    | none => .nan
  | _ => .nan

/-- Constructor rank used to order a numeric score before any other cell
value, with `NaN` strictly last (pandas sorts `NaN` last). -/
def pvalRank : PVal → Nat
  | .q _ => 0
  | .s _ => 1
  | .nan => 2

/-- Sort key comparison for `sort_values(by="score", ascending=False)`:
descending on numbers, `NaN` last. -/
def scoreLE (a b : PVal) : Bool :=
  match a, b with
  | .q x, .q y => decide (y ≤ x)
  | .s x, .s y => decide (y ≤ x)
  | a, b => decide (pvalRank a ≤ pvalRank b)

/-- Row comparison by the `score` column. -/
def rowLE (a b : PRow) : Prop :=
  scoreLE (colGet a "score") (colGet b "score") = true

instance : DecidableRel rowLE :=
  fun a b => inferInstanceAs (Decidable (scoreLE (colGet a "score") (colGet b "score") = true))

/-- `rank_papers` (paper_store.py 120-136): attach
`df["arxiv_id"].map(relevance_scores)` as the `score` column, then sort by
that column descending.  `sort_values(by="score", ascending=False)` runs
with the pandas default `kind="quicksort"`, which guarantees the key order
(descending, `NaN` last) but not the relative order of ties; the model
uses an executable comparison sort to pick one concrete output, and no
theorem relies on where it places tied rows. -/
def rank_papers (df : Frame) (relevance_scores : List (String × ℚ)) : Frame :=
  let scored := df.map (fun row => setCol row "score" (mapScore relevance_scores (colGet row "arxiv_id")))
  List.insertionSort rowLE scored

/-! ### Order lemmas for the rank sort -/

lemma scoreLE_total (a b : PVal) : scoreLE a b = true ∨ scoreLE b a = true := by
  cases a <;> cases b <;> simp [scoreLE, pvalRank] <;> exact le_total _ _

lemma scoreLE_trans (a b c : PVal) (h1 : scoreLE a b = true) (h2 : scoreLE b c = true) :
    scoreLE a c = true := by
  cases a <;> cases b <;> cases c <;>
    simp only [scoreLE, pvalRank, decide_eq_true_eq] at h1 h2 ⊢ <;>
    first
    | trivial
    | omega
    | exact h2.trans h1

instance : IsTotal PRow rowLE :=
  ⟨fun a b => (scoreLE_total (colGet a "score") (colGet b "score")).imp id id⟩

instance : IsTrans PRow rowLE :=
  ⟨fun _ _ _ h1 h2 => scoreLE_trans _ _ _ h1 h2⟩

lemma validatePapers_isSome (ps : List Paper) (i : Nat)
    (h : ∃ p ∈ ps, p.arxiv_id = none ∨ p.title = none) :
    (validatePapers ps i).isSome := by
  induction ps generalizing i with
  | nil => simp at h
  | cons a t ih =>
    obtain ⟨p, hp, hmiss⟩ := h
    unfold validatePapers
    by_cases ha : a.arxiv_id.isNone
    · simp [ha]
    · by_cases ht : a.title.isNone
      · simp [ha, ht]
      · rcases List.mem_cons.mp hp with rfl | hpt
        · rcases hmiss with h' | h'
          · exact absurd (Option.isNone_iff_eq_none.mpr h') ha
          · exact absurd (Option.isNone_iff_eq_none.mpr h') ht
        · simp only [ha, ht, if_false, Bool.false_eq_true]
          exact ih (i + 1) ⟨p, hpt, hmiss⟩

/-! ### Claims -/

/-- C1: the claim that `relevance_score` always lands in `[0,1]` fails on
the code: `parse_relevance_response` divides the score token by 10 with no
clamp and no range check, so the response `<score>15</score>` is stored as
`relevance_score = 1.5 > 1`. -/
theorem c1_score_not_clamped :
    (parse_relevance_response "<explanation>ok</explanation><score>15</score>").relevance_score = 3/2 ∧
    1 < (parse_relevance_response "<explanation>ok</explanation><score>15</score>").relevance_score := by
  have h : parse_relevance_response "<explanation>ok</explanation><score>15</score>" =
      { relevance_score := ((15 : ℕ) : ℚ) / 10, explanation := "ok" } := rfl
  rw [h]
  norm_num

/-- C3: `deduplicate_papers` is a stub returning its input unchanged, so a
frame with two rows sharing `arxiv_id` `2101.00001` still has both rows
after deduplication, contradicting the collapse-to-one contract. -/
theorem c3_dedup_is_identity :
    deduplicate_papers
        [[("arxiv_id", PVal.s "2101.00001"), ("title", PVal.s "A")],
         [("arxiv_id", PVal.s "2101.00001"), ("title", PVal.s "B")]] =
      [[("arxiv_id", PVal.s "2101.00001"), ("title", PVal.s "A")],
       [("arxiv_id", PVal.s "2101.00001"), ("title", PVal.s "B")]] ∧
    (deduplicate_papers
        [[("arxiv_id", PVal.s "2101.00001"), ("title", PVal.s "A")],
         [("arxiv_id", PVal.s "2101.00001"), ("title", PVal.s "B")]]).map
        (fun r => colGet r "arxiv_id") =
      [PVal.s "2101.00001", PVal.s "2101.00001"] := by
  exact ⟨rfl, rfl⟩

/-- C5 counterexample: with an empty author list and an oracle that never
matches, `search_with_fallback` issues 2 calls, not 3 — strategy 3 is
skipped, so the claimed "exactly 3 external calls on every no-match input"
is false. -/
theorem c5_two_calls_without_authors :
    (search_with_fallback (fun _ => ([] : List Unit)) "Completely Nonexistent Paper" []).1 = [] ∧
    (search_with_fallback (fun _ => ([] : List Unit)) "Completely Nonexistent Paper" []).2.length = 2 ∧
    ¬ (search_with_fallback (fun _ => ([] : List Unit)) "Completely Nonexistent Paper" []).2.length = 3 := by
  refine ⟨rfl, rfl, ?_⟩
  decide

/-- C5 (amended): the three strategies run in strict order — quoted title,
unquoted title, author-anchored query — short-circuiting on the first
non-empty result; on a no-match input the resolver issues exactly 3 calls
when the author-anchored strategy applies (non-empty authors and a
non-empty key phrase) and exactly 2 calls when it is skipped, returning
empty either way. -/
theorem c5_fallback_order {P : Type} (oracle : String → List P)
    (title : String) (authors : List String) :
    (oracle ("\"" ++ title ++ "\"") ≠ [] →
      search_with_fallback oracle title authors =
        (oracle ("\"" ++ title ++ "\""), ["\"" ++ title ++ "\""])) ∧
    (oracle ("\"" ++ title ++ "\"") = [] → oracle title ≠ [] →
      search_with_fallback oracle title authors =
        (oracle title, ["\"" ++ title ++ "\"", title])) ∧
    (oracle ("\"" ++ title ++ "\"") = [] → oracle title = [] →
      (strategy3Query title authors = none →
        search_with_fallback oracle title authors =
          ([], ["\"" ++ title ++ "\"", title])) ∧
      (∀ q3, strategy3Query title authors = some q3 →
        (oracle q3 ≠ [] →
          search_with_fallback oracle title authors =
            (oracle q3, ["\"" ++ title ++ "\"", title, q3])) ∧
        (oracle q3 = [] →
          search_with_fallback oracle title authors =
            ([], ["\"" ++ title ++ "\"", title, q3])))) := by
  refine ⟨?_, ?_, ?_⟩
  · intro h1
    simp [search_with_fallback, List.isEmpty_iff, h1]
  · intro h1 h2
    simp [search_with_fallback, List.isEmpty_iff, h1, h2]
  · intro h1 h2
    refine ⟨?_, ?_⟩
    · intro h3
      simp [search_with_fallback, List.isEmpty_iff, h1, h2, h3]
    · intro q3 h3
      refine ⟨?_, ?_⟩ <;> intro h4 <;>
        simp [search_with_fallback, List.isEmpty_iff, h1, h2, h3, h4]

/-- C5 witness: a quoted-title hit returns immediately after one call. -/
theorem c5_fallback_order_witness :
    search_with_fallback (fun q => if q = "\"T\"" then [()] else []) "T" ["Vaswani, Ashish"] =
      ([()], ["\"T\""]) :=
  (c5_fallback_order (fun q => if q = "\"T\"" then [()] else []) "T" ["Vaswani, Ashish"]).1
    (by decide)

/-- C8: for jitter in `[-1/5, 1/5]`, the delay imposed before the
operation is in `[4/5, 6/5]`, and a sequence of N throttled calls (one
delay before each call) accumulates at least `4/5 * N` total delay. -/
theorem c8_throttle_floor (js : List ℚ) (h : ∀ j ∈ js, -(1/5) ≤ j ∧ j ≤ 1/5) :
    (∀ j ∈ js, 4/5 ≤ throttleDelay j ∧ throttleDelay j ≤ 6/5) ∧
    (4/5) * (js.length : ℚ) ≤ (js.map throttleDelay).sum := by
  have hpt : ∀ j : ℚ, -(1/5) ≤ j → j ≤ 1/5 →
      4/5 ≤ throttleDelay j ∧ throttleDelay j ≤ 6/5 := by
    intro j h1 h2
    rw [show throttleDelay j = if 1 + j < 4/5 then (4/5 : ℚ) else 1 + j from rfl]
    split
    · constructor <;> norm_num
    · constructor <;> linarith
  refine ⟨fun j hj => hpt j (h j hj).1 (h j hj).2, ?_⟩
  induction js with
  | nil => simp
  | cons a t ih =>
    have ha := hpt a (h a (List.mem_cons_self a t)).1 (h a (List.mem_cons_self a t)).2
    have ht := ih (fun j hj => h j (List.mem_cons_of_mem a hj))
    simp only [List.map_cons, List.sum_cons, List.length_cons]
    push_cast
    linarith [ha.1, ht]

/-- C8 witness: three concrete jitters within the band. -/
theorem c8_throttle_floor_witness :
    (∀ j ∈ [(0 : ℚ), 1/5, -(1/5)], 4/5 ≤ throttleDelay j ∧ throttleDelay j ≤ 6/5) ∧
    (4/5) * (([(0 : ℚ), 1/5, -(1/5)].length : ℚ)) ≤
      ([(0 : ℚ), 1/5, -(1/5)].map throttleDelay).sum :=
  c8_throttle_floor [0, 1/5, -(1/5)] (by
    intro j hj
    simp only [List.mem_cons, List.not_mem_nil, or_false] at hj
    rcases hj with rfl | rfl | rfl <;> norm_num)

/-- C9: the response parser is total: for every input string it returns a
result record, and whenever the parse does not succeed cleanly (the
`parse_error` field is set) the stored `relevance_score` is 0. -/
theorem c9_parser_total (s : String) :
    (parse_relevance_response s).parse_error = none ∨
    (parse_relevance_response s).relevance_score = 0 := by
  unfold parse_relevance_response
  rcases h : parseCore s with v | e <;> simp [h]

/-- C10: building the store table from an empty record list fails with the
construction-time `ValueError` of the empty-input check, before any
required-field validation (the error is the no-papers message, not the
missing-fields message). -/
theorem c10_empty_input_rejected (to_datetime to_numeric : PVal → PVal) :
    create_dataframe to_datetime to_numeric [] =
      .error "No papers provided to create_dataframe" := rfl

/-- C2: the claim that calls without reported token counts contribute zero
to the batch totals without error fails on the code: the messages-style
backend does not omit the usage keys, it sets them to Python `None`
(llm_analyzer.py 166-168), and `token_usage[...] += None` then raises a
`TypeError` inside `batch_analyze`, aborting the batch. -/
theorem c2_anthropic_none_tokens_crash :
    (batch_analyze
        (fun p => if p = "anthropic" then
            some ⟨fun _ model_id _ =>
              .ok ("<explanation>ok</explanation><score>8</score>", anthropicMetadata model_id)⟩
          else none)
        [{ arxiv_id := some "2101.00001", title := some "T" }]
        ["Q"] "claude-3-7-sonnet").1 =
      .error "TypeError: unsupported operand type(s) for +=: \x27int\x27 and \x27NoneType\x27" := rfl

/-- C6: `analyze_relevance` rejects a paper dict missing `arxiv_id` or
`title` with a raised `ValueError` and issues no external call, and
`batch_analyze` validates every paper up front, failing the whole batch
with no call issued when any paper lacks one of the two fields. -/
theorem c6_validation_before_calls (getProv : String → Option Provider)
    (q mk : String) (paper : Paper) (papers : List Paper) (questions : List String)
    (hp : paper.arxiv_id = none ∨ paper.title = none)
    (hps : ∃ p ∈ papers, p.arxiv_id = none ∨ p.title = none) :
    ((analyze_relevance getProv paper q mk).1.isOk = false ∧
      (analyze_relevance getProv paper q mk).2 = []) ∧
    ((batch_analyze getProv papers questions mk).1.isOk = false ∧
      (batch_analyze getProv papers questions mk).2 = []) := by
  constructor
  · rcases hp with h | h
    · simp [analyze_relevance, h, Except.isOk, Except.toBool]
    · rcases harx : paper.arxiv_id with _ | a
      · simp [analyze_relevance, harx, Except.isOk, Except.toBool]
      · simp [analyze_relevance, harx, h, Except.isOk, Except.toBool]
  · unfold batch_analyze
    rcases hm : SUPPORTED_MODELS.lookup mk with _ | mi
    · simp [Except.isOk, Except.toBool]
    · rcases Option.isSome_iff_exists.mp (validatePapers_isSome papers 0 hps) with ⟨e, he⟩
      simp [he, Except.isOk, Except.toBool]

/-- C6 witness: a paper dict with a title but no `arxiv_id`. -/
theorem c6_validation_before_calls_witness :
    ((analyze_relevance (fun _ => none) ({ title := some "T" } : Paper) "Q" "gpt-4o").1.isOk = false ∧
      (analyze_relevance (fun _ => none) ({ title := some "T" } : Paper) "Q" "gpt-4o").2 = []) ∧
    ((batch_analyze (fun _ => none) [({ title := some "T" } : Paper)] ["Q"] "gpt-4o").1.isOk = false ∧
      (batch_analyze (fun _ => none) [({ title := some "T" } : Paper)] ["Q"] "gpt-4o").2 = []) :=
  c6_validation_before_calls (fun _ => none) "Q" "gpt-4o" { title := some "T" }
    [{ title := some "T" }] ["Q"] (Or.inl rfl)
    ⟨{ title := some "T" }, List.mem_singleton.mpr rfl, Or.inl rfl⟩

/-- C7: whenever the parse of a response fails (blocks not found, or a
non-numeric score token), the result has `relevance_score = 0` and its
diagnostic explanation embeds exactly the first 200 characters of the raw
response — never more, and never the whole text of a longer response. -/
theorem c7_failure_excerpt_bounded (s e : String) (h : parseCore s = .error e) :
    (parse_relevance_response s).relevance_score = 0 ∧
    (parse_relevance_response s).explanation =
      "Failed to parse LLM response: " ++ e ++
        "\nOriginal response: " ++ firstChars s 200 ++ "..." ∧
    (firstChars s 200).length ≤ 200 ∧
    (200 < s.length → (firstChars s 200).length < s.length) := by
  have hlen : (firstChars s 200).length = min 200 s.length := by
    show (s.data.take 200).length = min 200 s.data.length
    simp
  refine ⟨?_, ?_, ?_, ?_⟩
  · simp [parse_relevance_response, h]
  · simp [parse_relevance_response, h]
  · omega
  · omega

/-- C7 witness: a response with no XML blocks. -/
theorem c7_failure_excerpt_bounded_witness :
    (parse_relevance_response "no tags here").relevance_score = 0 ∧
    (parse_relevance_response "no tags here").explanation =
      "Failed to parse LLM response: " ++ "Failed to find explanation or score in XML response" ++
        "\nOriginal response: " ++ firstChars "no tags here" 200 ++ "..." ∧
    (firstChars "no tags here" 200).length ≤ 200 ∧
    (200 < "no tags here".length → (firstChars "no tags here" 200).length < "no tags here".length) :=
  c7_failure_excerpt_bounded "no tags here" "Failed to find explanation or score in XML response" rfl

/-- C4 counterexample: a row whose id has no entry in the score mapping
comes out of `rank_papers` carrying the missing value `NaN` in its `score`
column, not a defined numeric sentinel. -/
theorem c4_missing_score_is_nan :
    (rank_papers [[("arxiv_id", PVal.s "A"), ("title", PVal.s "t")]] []).map
        (fun r => colGet r "score") = [PVal.nan] ∧
    ¬ ∃ v : ℚ, (rank_papers [[("arxiv_id", PVal.s "A"), ("title", PVal.s "t")]] []).map
        (fun r => colGet r "score") = [PVal.q v] := by
  refine ⟨rfl, ?_⟩
  rintro ⟨v, hv⟩
  rw [show (rank_papers [[("arxiv_id", PVal.s "A"), ("title", PVal.s "t")]] []).map
      (fun r => colGet r "score") = [PVal.nan] from rfl] at hv
  simp at hv

/-- C4 (amended): `rank_papers` attaches `score :=` the mapped score to
every row, rows whose id has no entry receiving the missing value `NaN`
(which the sort places after every numeric score) rather than a defined
sentinel; the result is the scored rows reordered (a permutation), sorted
descending by score with missing scores last.  The relative order of rows
with equal sort keys is not asserted: the underlying sort
(`kind="quicksort"`, the pandas default) does not guarantee it. -/
theorem c4_rank_sorted (df : Frame) (relevance_scores : List (String × ℚ)) :
    (rank_papers df relevance_scores).Perm
      (df.map (fun row => setCol row "score" (mapScore relevance_scores (colGet row "arxiv_id")))) ∧
    List.Pairwise rowLE (rank_papers df relevance_scores) := by
  exact ⟨List.perm_insertionSort rowLE _, List.sorted_insertionSort rowLE _⟩
